import Mathlib

/-!
Shallow embedding of the HTTP server lifecycle subsystem of the go-client
repository (pkg/server/server.go, pkg/server/middleware.go,
pkg/server/driver/driver.go, and the RunServer orchestrator revision).
Pure Go functions become Lean functions; the mutable response writer,
context logger, structured log sink and process stdout become an explicit
state record threaded through handlers; the environmental outcome of a
blocking socket serve call becomes an explicit parameter.
-/

namespace IV

/-- Errors flowing through the subsystem. `errServerClosed`, `addrInUse` and
`netFatal` model the values the Go standard library produces. The
constructors `transportError`, `routeConflictError` and `shutdownTimeout`
are the specification's error taxonomy; they exist in this error domain so
that the specification's claims can be stated, and the theorems below show
where the code does or does not produce them. -/
inductive GoError
  | errServerClosed
  | addrInUse (addr : String)
  | netFatal (msg : String)
  | transportError (cause : GoError)
  | routeConflictError (pat : String)
  | shutdownTimeout
deriving DecidableEq

/-- Result of a Go call returning `error`: `ok` is a nil error. -/
abbrev GoResult := Except GoError Unit

/-- Error text as produced by the Go error values (used in log lines). -/
def GoError.text : GoError → String
  | .errServerClosed => "http: Server closed"
  | .addrInUse a => "listen tcp " ++ a ++ ": address already in use"
  | .netFatal m => m
  | .transportError c => "transport error: " ++ c.text
  | .routeConflictError p => "route conflict: " ++ p
  | .shutdownTimeout => "context deadline exceeded"

def GoResult.errText : GoResult → String
  | .ok _ => "nil"
  | .error e => e.text

/-- True exactly on an error wrapped by the spec's TransportError taxon. -/
def GoError.isTransportError : GoError → Bool
  | .transportError _ => true
  | _ => false

def resultIsTransportError : GoResult → Bool
  | .error e => e.isTransportError
  | .ok _ => false

/-- A zerolog logger: its accumulated structured context fields. -/
structure Logger where
  ctxFields : List (String × String)
deriving DecidableEq

/-- An incoming HTTP request (the parts this subsystem reads). -/
structure Request where
  method : String
  path : String
  remoteAddr : String
deriving DecidableEq

/-- One structured log entry emitted through zerolog. -/
structure LogEntry where
  fields : List (String × String)
  msg : String
deriving DecidableEq

def LogEntry.hasFieldKey (e : LogEntry) (k : String) : Bool :=
  e.fields.any (fun f => f.1 == k)

/-- Response writer state: `status` is `none` until the handler calls
WriteHeader or Write. -/
structure ResponseState where
  status : Option Nat
  body : List String
deriving DecidableEq

def ResponseState.initial : ResponseState := ⟨none, []⟩

/-- net/http semantics: a handler that never writes produces a 200 response. -/
def finalizeStatus (resp : ResponseState) : Nat := resp.status.getD 200

/-- Recorded status as hlog's response-writer proxy reports it to the access
callback: 0 when the handler never wrote. -/
def recordedStatus (resp : ResponseState) : Nat := resp.status.getD 0

def responseSize (resp : ResponseState) : Nat := (resp.body.map String.length).sum

/-- The mutable world a request handler can touch: the context logger cell
(shared by pointer in the Go code), the response writer, the structured log
sink, and process stdout. -/
structure HState where
  loggerCtx : Option Logger
  resp : ResponseState
  logs : List LogEntry
  stdout : List String
deriving DecidableEq

def HState.initial : HState := ⟨none, ResponseState.initial, [], []⟩

/-- An http.Handler: transforms the request-visible state. -/
abbrev Handler := Request → HState → HState

/-- A handler-wrapping function (alice constructor). -/
abbrev Middleware := Handler → Handler

/-- zerolog emission through the context logger, as in
`hlog.FromRequest(r).Info().Str(...).Msg(...)`: the entry carries the
logger's context fields followed by the explicit fields. With no logger in
the context, zerolog's disabled logger emits nothing. -/
def emitInfo (st : HState) (explicitFields : List (String × String)) (msg : String) : HState :=
  match st.loggerCtx with
  | none => st
  | some lg => { st with logs := st.logs ++ [⟨lg.ctxFields ++ explicitFields, msg⟩] }

/-- hlog.NewHandler: installs the given logger in the request context. -/
def hlogNewHandler (lgr : Logger) : Middleware := fun next r st =>
  next r { st with loggerCtx := some lgr }

/-- hlog.RemoteAddrHandler: when the request carries a nonempty remote
address, adds it to the context logger under the given field key, then runs
the downstream handler. -/
def hlogRemoteAddrHandler (fieldKey : String) : Middleware := fun next r st =>
  let recordAddr : Option Logger → Option Logger := fun o =>
    o.map (fun lg => ⟨lg.ctxFields ++ [(fieldKey, r.remoteAddr)]⟩)
  let st' :=
    if r.remoteAddr ≠ "" then { st with loggerCtx := recordAddr st.loggerCtx }
    else st
  next r st'

/-- The callback signature of hlog.AccessHandler: request, recorded status,
response size, duration. -/
abbrev AccessCallback := Request → Nat → Nat → Nat → HState → HState

/-- hlog.AccessHandler: runs the downstream handler, then invokes the
callback with the recorded status, the response size and the duration. The
callback observes the state after the downstream handler completed, because
the context logger is shared by pointer in the Go code. Wall-clock duration
is outside the model; the callback receives 0 (the code's callback ignores
the value either way). -/
def hlogAccessHandler (cb : AccessCallback) : Middleware := fun next r st =>
  let st' := next r st
  cb r (recordedStatus st'.resp) (responseSize st'.resp) 0 st'

/-- The alice.Chain: an ordered list of constructors, outermost first. -/
structure AliceChain where
  constructors : List Middleware

/-- alice.New. -/
def aliceNew (cs : List Middleware) : AliceChain := ⟨cs⟩

/-- alice.Chain.Append: adds a constructor at the innermost end. -/
def AliceChain.append (c : AliceChain) (m : Middleware) : AliceChain :=
  ⟨c.constructors ++ [m]⟩

/-- alice.Chain.Then / ThenFunc: wraps the terminal handler with every
constructor, first constructor outermost. -/
def AliceChain.thenFunc (c : AliceChain) (h : Handler) : Handler :=
  c.constructors.foldr (fun m acc => m acc) h

/-- net/http.ServeMux: ordered pattern/handler registrations. -/
abbrev ServeMux := List (String × Handler)

def muxHas (m : ServeMux) (pat : String) : Bool :=
  m.any (fun q => q.1 == pat)

def muxLookup (m : ServeMux) (pat : String) : Option Handler :=
  (m.find? (fun q => q.1 == pat)).map (fun q => q.2)

/-- Outcome of a ServeMux.Handle call. `errValue` would be a Go error
returned as a value together with the resulting multiplexer; it exists in
this outcome domain only so the specification's RouteConflictError claim can
be stated — `muxHandle` below never constructs it, because Handle in the Go
standard library has no error return. -/
inductive HandleResult
  | ok (m : ServeMux)
  | errValue (e : GoError) (m : ServeMux)
  | panicked (msg : String)

def HandleResult.isErrValue : HandleResult → Bool
  | .errValue _ _ => true
  | _ => false

def HandleResult.isPanicked : HandleResult → Bool
  | .panicked _ => true
  | _ => false

/-- net/http.ServeMux.Handle, as documented: panics when the pattern
conflicts with an existing registration, otherwise records the handler. The
repository calls it in registerRoutes. On a panic no mutation has happened,
so the caller's multiplexer keeps its previous registrations. -/
def muxHandle (m : ServeMux) (pat : String) (h : Handler) : HandleResult :=
  if muxHas m pat then
    .panicked ("http: multiple registrations for " ++ pat)
  else
    .ok (m ++ [(pat, h)])

/-- A context.Context carrying at most a deadline (context.WithTimeout). -/
structure Ctx where
  timeout : Option Nat
deriving DecidableEq

/-- Environmental outcome of a blocking net/http serve call. -/
inductive ServeOutcome
  | gracefulClose
  | bindFailure
  | fatalNetError (msg : String)
deriving DecidableEq

/-- The net/http.Server record (the fields this subsystem sets). -/
structure HttpServer where
  readTimeout : Nat
  writeTimeout : Nat
  idleTimeout : Nat
  addr : String
  handler : Option ServeMux

/-- net/http.Server.ListenAndServe: never returns a nil error — it returns
ErrServerClosed after a graceful close, and the raw bind or accept error
otherwise. -/
def HttpServer.listenAndServe (srv : HttpServer) (outcome : ServeOutcome) : GoResult :=
  match outcome with
  | .gracefulClose => .error .errServerClosed
  | .bindFailure => .error (.addrInUse srv.addr)
  | .fatalNetError m => .error (.netFatal m)

/-- The concrete Driver of pkg/server/server.go: wraps a net/http.Server. -/
structure Driver where
  Server : HttpServer

/-- NewDriver: fixed 30 time-unit read/write/idle timeouts. -/
def NewDriver : Driver :=
  ⟨{ readTimeout := 30, writeTimeout := 30, idleTimeout := 30,
     addr := "", handler := none }⟩

/-- Driver.ListenAndServe from pkg/server/server.go: stores the address and
handler on the embedded net/http.Server and returns that server's
ListenAndServe result directly — no wrapping, no retry. -/
def Driver.ListenAndServe (d : Driver) (addr : String) (h : ServeMux)
    (outcome : ServeOutcome) : Driver × GoResult :=
  let d' : Driver := ⟨{ d.Server with addr := addr, handler := some h }⟩
  (d', d'.Server.listenAndServe outcome)

/-- Driver.Shutdown from pkg/server/server.go: returns nil and touches
nothing. -/
def Driver.Shutdown (d : Driver) (_ctx : Ctx) : Driver × GoResult :=
  (d, .ok ())

/-- The driver.Server interface of pkg/server/driver/driver.go, as a
capability record: the Server façade is polymorphic over it. -/
structure DriverIface (σ : Type) where
  ListenAndServe : σ → String → ServeMux → ServeOutcome → σ × GoResult
  Shutdown : σ → Ctx → σ × GoResult

/-- The interface instance of the concrete Driver. -/
def driverIface : DriverIface Driver :=
  { ListenAndServe := Driver.ListenAndServe, Shutdown := Driver.Shutdown }

/-- The Server façade of pkg/server/server.go. -/
structure Server (σ : Type) where
  mux : ServeMux
  Driver : σ
  iface : DriverIface σ
  Logger : Logger
  Addr : String

/-- server.New: constructs the façade; the address is set afterwards. -/
def New {σ : Type} (sm : ServeMux) (ds : σ) (iface : DriverIface σ)
    (lgr : Logger) : Server σ :=
  { mux := sm, Driver := ds, iface := iface, Logger := lgr, Addr := "" }

/-- Server.ListenAndServe from pkg/server/server.go: delegates directly to
the driver with the stored address and multiplexer. No call to
registerRoutes appears here or anywhere else in the repository. -/
def Server.ListenAndServe {σ : Type} (s : Server σ) (outcome : ServeOutcome) :
    Server σ × GoResult :=
  let p := s.iface.ListenAndServe s.Driver s.Addr s.mux outcome
  ({ s with Driver := p.1 }, p.2)

/-- Server.Shutdown from the RunServer revision: returns nil without
consulting the driver. -/
def Server.Shutdown {σ : Type} (s : Server σ) (_ctx : Ctx) :
    Server σ × GoResult :=
  (s, .ok ())

/-- The access callback installed in Server.loggerChain
(pkg/server/middleware.go): logs one entry with the single explicit field
"method" and the message "request logged". The status, size and duration
arguments are received but not used. -/
def accessLogCallback : AccessCallback := fun r _status _size _duration st =>
  emitInfo st [("method", r.method)] "request logged"

/-- Server.loggerChain from pkg/server/middleware.go:
alice.New(hlog.NewHandler(s.Logger), hlog.AccessHandler(...),
hlog.RemoteAddrHandler("remove_ip")). -/
def Server.loggerChain {σ : Type} (s : Server σ) : AliceChain :=
  aliceNew [hlogNewHandler s.Logger, hlogAccessHandler accessLogCallback,
            hlogRemoteAddrHandler "remove_ip"]

/-- Server.authHandler from pkg/server/middleware.go: prints
"Auth Middleware" to stdout and passes the request through unchanged. -/
def Server.authHandler {σ : Type} (_s : Server σ) : Middleware := fun h r st =>
  h r { st with stdout := st.stdout ++ ["Auth Middleware"] }

/-- Server.handleGetVersion from pkg/server/middleware.go: prints
"Version is 0.1" to stdout; never touches the response writer or the
structured logger. -/
def Server.handleGetVersion {σ : Type} (_s : Server σ) : Handler := fun _r st =>
  { st with stdout := st.stdout ++ ["Version is 0.1"] }

/-- The composed handler registerRoutes attaches to "GET /api":
s.loggerChain().Append(s.authHandler).ThenFunc(s.handleGetVersion). -/
def Server.composedApiHandler {σ : Type} (s : Server σ) : Handler :=
  ((s.loggerChain.append s.authHandler).thenFunc s.handleGetVersion)

/-- Server.registerRoutes from pkg/server/middleware.go: registers the one
route "GET /api" on the multiplexer through ServeMux.Handle. -/
def Server.registerRoutes {σ : Type} (s : Server σ) : HandleResult :=
  muxHandle s.mux "GET /api" s.composedApiHandler

/-- The process logger produced by logging.InitLogger: no context fields. -/
def initLogger : Logger := ⟨[]⟩

/-- The Server value RunServer constructs:
New(http.NewServeMux(), NewDriver(), lgr) with Addr set to ":8081". -/
def runServerInstance : Server Driver :=
  { New [] NewDriver driverIface initLogger with Addr := ":8081" }

/-- Which source wins the orchestrator's select: the error channel fed by
the serving goroutine (with the environmental serve outcome), or the
interrupt/termination signal channel. -/
inductive RaceOutcome
  | startError (outcome : ServeOutcome)
  | signalFirst
deriving DecidableEq

/-- What a RunServer activation yields: its return value, the grace-period
timeouts passed to Shutdown calls (in order), and the log lines emitted. -/
structure RunResult where
  value : GoResult
  shutdownTimeouts : List Nat
  logLines : List String

/-- RunServer from the orchestrator revision: constructs the server, serves
on a goroutine feeding an error channel, then selects between the first
serve error and a termination signal. Both branches log and fall through to
`return nil`. In the signal branch Shutdown is called with a 5 time-unit
deadline and any shutdown error is logged, not returned. -/
def RunServer (race : RaceOutcome) : RunResult :=
  let s := runServerInstance
  match race with
  | .startError outcome =>
    let p := s.ListenAndServe outcome
    { value := .ok (),
      shutdownTimeouts := [],
      logLines := ["Logging Initialized",
                   "server start error: " ++ p.2.errText] }
  | .signalFirst =>
    let ctx : Ctx := ⟨some 5⟩
    let p := s.Shutdown ctx
    { value := .ok (),
      shutdownTimeouts := [ctx.timeout.getD 0],
      logLines := ["Logging Initialized", "shutdown signal received"] ++
        (match p.2 with
         | .ok _ => []
         | .error e => ["graceful shutdown error: " ++ e.text]) }

/-- The log line the orchestrator emits in each select branch. -/
def branchLogLine : RaceOutcome → String
  | .startError outcome =>
    "server start error: " ++ (runServerInstance.ListenAndServe outcome).2.errText
  | .signalFirst => "shutdown signal received"

/-- Observable events of one RunServer activation, in order. -/
inductive Ev
  | listenBegin (addr : String)
  | errSent
  | sigArrived
  | shutdownCall (graceTimeout : Nat)
  | ret
deriving DecidableEq

def Ev.isListenBegin : Ev → Bool
  | .listenBegin _ => true
  | _ => false

/-- The interleavings of RunServer permitted by Go's scheduling model. The
serving goroutine is launched asynchronously and nothing synchronizes it
with the main select, so the signal branch may fire before the goroutine
has run at all (and once RunServer returns, the process exits and the
goroutine never runs); the error branch requires the goroutine to have
begun listening and sent its result. -/
inductive Sched
  | errWins
  | sigWinsBeforeListen
  | sigWinsAfterListen
deriving DecidableEq

/-- Event trace of RunServer under each schedule. Shutdown is called only
in the signal branch, once, with the 5 time-unit grace period of
context.WithTimeout. -/
def runServerTrace : Sched → List Ev
  | .errWins => [.listenBegin ":8081", .errSent, .ret]
  | .sigWinsBeforeListen => [.sigArrived, .shutdownCall 5, .ret]
  | .sigWinsAfterListen =>
    [.listenBegin ":8081", .sigArrived, .shutdownCall 5, .ret]

/-- The grace-period arguments of the Shutdown calls in a trace. -/
def shutdownCallTimeouts (tr : List Ev) : List Nat :=
  tr.filterMap (fun e => match e with
    | .shutdownCall t => some t
    | _ => none)

/-- The structured entry the access recorder emits for a request handled by
the composed GET /api handler: the logger's context fields, the remote
address recorded under "remove_ip" when present, and the explicit "method"
field. -/
def accessEntry {σ : Type} (s : Server σ) (r : Request) : LogEntry :=
  ⟨(s.Logger.ctxFields ++
      (if r.remoteAddr ≠ "" then [("remove_ip", r.remoteAddr)] else [])) ++
     [("method", r.method)], "request logged"⟩

/-- A driver interface whose Shutdown reports a timeout, witnessing that the
Server façade is polymorphic over drivers with failing shutdowns. -/
def failingShutdownIface : DriverIface Unit :=
  { ListenAndServe := fun u _ _ _ => (u, .ok ()),
    Shutdown := fun u _ => (u, .error .shutdownTimeout) }

def failingShutdownServer : Server Unit :=
  New [] () failingShutdownIface initLogger

def firstHandler : Handler := fun _ st => st

def secondHandler : Handler := fun _ st =>
  { st with stdout := st.stdout ++ ["second"] }

/-- A multiplexer already holding a registration for "GET /api". -/
def conflictMux : ServeMux := [("GET /api", firstHandler)]

/-- A concrete request as delivered over TCP: nonempty remote address. -/
def sampleRequest : Request := ⟨"GET", "/api", "203.0.113.7:4711"⟩

/-- C1 (counterexample): on the server RunServer constructs, invoking
Start() (Server.ListenAndServe) leaves the multiplexer without any
"GET /api" route — registerRoutes is never called, contradicting the claim
that Start first registers all routes. -/
theorem c1_start_registers_no_routes_cex :
    muxHas (runServerInstance.ListenAndServe ServeOutcome.bindFailure).1.mux
      "GET /api" = false := rfl

/-- C1 (amended): Start() delegates to Driver.ListenAndServe(address,
multiplexer) and returns that single call's result with no retry; it
performs no route registration, so the multiplexer it passes to the driver
and keeps afterwards is exactly the one it started with. -/
theorem c1_start_delegates_without_registering {σ : Type} (s : Server σ)
    (o : ServeOutcome) :
    (s.ListenAndServe o).2 = (s.iface.ListenAndServe s.Driver s.Addr s.mux o).2 ∧
    (s.ListenAndServe o).1.mux = s.mux :=
  ⟨rfl, rfl⟩

/-- C2 (counterexample): for a driver whose Shutdown reports a timeout
error, Server.Shutdown still returns nil — it does not return the driver's
Shutdown result, so it does not delegate. -/
theorem c2_shutdown_not_delegated_cex :
    (failingShutdownServer.Shutdown ⟨some 5⟩).2 = Except.ok () ∧
    (failingShutdownServer.iface.Shutdown failingShutdownServer.Driver
        ⟨some 5⟩).2 = Except.error GoError.shutdownTimeout ∧
    (failingShutdownServer.Shutdown ⟨some 5⟩).2
      ≠ (failingShutdownServer.iface.Shutdown failingShutdownServer.Driver
          ⟨some 5⟩).2 := by
  refine ⟨rfl, rfl, ?_⟩
  intro h
  exact Except.noConfusion h

/-- C2 (amended): Server.Shutdown ignores the driver entirely and returns
nil unconditionally for every server state and deadline; in particular the
call is safe even if Start never completed or failed. -/
theorem c2_shutdown_unconditional_nil {σ : Type} (s : Server σ) (ctx : Ctx) :
    s.Shutdown ctx = (s, Except.ok ()) := rfl

/-- C3 (counterexample): when Start() fails with a bind failure, RunServer
still returns nil, so the process exits zero — the error does not propagate
out of the orchestrator. -/
theorem c3_start_error_not_propagated_cex :
    (RunServer (RaceOutcome.startError ServeOutcome.bindFailure)).value
      = Except.ok () := rfl

/-- C3 (amended): RunServer returns nil on every race outcome: a Start()
error is logged in the orchestrator's error branch and swallowed, and a
signal-triggered shutdown also returns nil with its branch logged — in both
cases the process exit path is success. -/
theorem c3_runserver_always_returns_nil (race : RaceOutcome) :
    (RunServer race).value = Except.ok () ∧
    branchLogLine race ∈ (RunServer race).logLines := by
  cases race <;> simp [RunServer, branchLogLine]

/-- C4 (counterexample): a schedule in which the termination signal wins
the select before the serving goroutine has run at all: Shutdown is invoked
although Start never began listening — no listenBegin event occurs. -/
theorem c4_shutdown_before_listen_cex :
    (shutdownCallTimeouts (runServerTrace Sched.sigWinsBeforeListen)).length
      = 1 ∧
    (runServerTrace Sched.sigWinsBeforeListen).all
      (fun e => !e.isListenBegin) = true := by
  decide

/-- C4 (amended): in every schedule of the orchestrator, Shutdown is
invoked at most once and always with the bounded 5 time-unit grace period;
however nothing orders it after the start of listening — the signal branch
can fire before the serving goroutine runs. -/
theorem c4_shutdown_at_most_once_grace5 (sched : Sched) :
    (shutdownCallTimeouts (runServerTrace sched)).length ≤ 1 ∧
    ∀ t ∈ shutdownCallTimeouts (runServerTrace sched), t = 5 := by
  cases sched <;> exact ⟨by decide, by decide⟩

/-- C5 (counterexample): on a bind failure, Driver.ListenAndServe returns
the raw underlying error (address in use) and not a TransportError wrapping
it. -/
theorem c5_no_transport_wrapping_cex :
    (NewDriver.ListenAndServe ":8081" [] ServeOutcome.bindFailure).2
      = Except.error (GoError.addrInUse ":8081") ∧
    resultIsTransportError
      (NewDriver.ListenAndServe ":8081" [] ServeOutcome.bindFailure).2
      = false :=
  ⟨rfl, rfl⟩

/-- C5 (amended): Driver.ListenAndServe stores the address and handler on
the embedded net/http server and returns that single underlying serve
result unchanged — ErrServerClosed on graceful close, the raw bind or
fatal network error otherwise — never a TransportError wrapper and with no
retry. -/
theorem c5_driver_returns_underlying_error (d : Driver) (addr : String)
    (h : ServeMux) (o : ServeOutcome) :
    (d.ListenAndServe addr h o).2
      = HttpServer.listenAndServe
          { d.Server with addr := addr, handler := some h } o ∧
    resultIsTransportError (d.ListenAndServe addr h o).2 = false := by
  refine ⟨rfl, ?_⟩
  cases o <;> rfl

/-- C6 (counterexample): registering a second handler under the already
taken pattern "GET /api" panics through ServeMux.Handle; it does not yield
a RouteConflictError error value. -/
theorem c6_duplicate_registration_panics_cex :
    muxHandle conflictMux "GET /api" secondHandler
      = HandleResult.panicked "http: multiple registrations for GET /api" ∧
    (muxHandle conflictMux "GET /api" secondHandler).isErrValue = false := by
  constructor
  · rfl
  · rfl

/-- C6 (amended): a second registration under a pattern already present in
the multiplexer panics (the documented ServeMux.Handle crash) instead of
returning an error value; no mutation happens on the panic path, so the
previously registered route is left intact. -/
theorem c6_duplicate_registration_panics (m : ServeMux) (p : String)
    (h : Handler) (hm : muxHas m p = true) :
    muxHandle m p h
      = HandleResult.panicked ("http: multiple registrations for " ++ p) ∧
    (muxHandle m p h).isErrValue = false := by
  simp [muxHandle, hm, HandleResult.isErrValue]

/-- C6 (witness): the amended duplicate-registration theorem applied to the
concrete conflicting multiplexer. -/
theorem c6_duplicate_registration_panics_witness :
    muxHas conflictMux "GET /api" = true ∧
    (muxHandle conflictMux "GET /api" secondHandler
        = HandleResult.panicked
            ("http: multiple registrations for " ++ "GET /api") ∧
     (muxHandle conflictMux "GET /api" secondHandler).isErrValue = false) :=
  ⟨by decide,
   c6_duplicate_registration_panics conflictMux "GET /api" secondHandler
     (by decide)⟩

/-- C7 (counterexample): for a concrete GET /api request through the
composed handler of the server RunServer builds, exactly one structured
entry is emitted and it carries only the remote address and the method —
no status, size or duration field. -/
theorem c7_access_entry_lacks_fields_cex :
    (runServerInstance.composedApiHandler sampleRequest HState.initial).logs
      = [⟨[("remove_ip", "203.0.113.7:4711"), ("method", "GET")],
          "request logged"⟩] ∧
    ((runServerInstance.composedApiHandler sampleRequest
        HState.initial).logs.all
      (fun e => !e.hasFieldKey "status" && !e.hasFieldKey "size"
                && !e.hasFieldKey "duration")) = true := by
  constructor
  · rfl
  · decide

/-- C7 (amended): on the orchestrator's server, every request through the
composed handler causes the access recorder to emit exactly one structured
entry after the terminal handler completes; the entry contains the method
(and the recorded remote address), but not the status, the response size
or the duration, which the callback receives and discards. -/
theorem c7_access_logs_method_only (r : Request) (st : HState) :
    (runServerInstance.composedApiHandler r st).logs
      = st.logs ++ [accessEntry runServerInstance r] ∧
    (accessEntry runServerInstance r).hasFieldKey "method" = true ∧
    (accessEntry runServerInstance r).hasFieldKey "status" = false ∧
    (accessEntry runServerInstance r).hasFieldKey "size" = false ∧
    (accessEntry runServerInstance r).hasFieldKey "duration" = false ∧
    (runServerInstance.composedApiHandler r st).stdout
      = st.stdout ++ ["Auth Middleware", "Version is 0.1"] := by
  by_cases hra : r.remoteAddr = "" <;>
    simp [Server.composedApiHandler, Server.loggerChain, aliceNew,
          AliceChain.append, AliceChain.thenFunc, hlogNewHandler,
          hlogAccessHandler, hlogRemoteAddrHandler, Server.authHandler,
          Server.handleGetVersion, emitInfo, accessLogCallback, accessEntry,
          LogEntry.hasFieldKey, runServerInstance, New, initLogger, hra]

/-- C8: the middleware chain is the ordered list {logging injector, access
recorder, remote-address recorder, authentication gate} applied
outermost-first; registerRoutes wraps the terminal handler with it exactly
once for the single GET /api route; and for every request with a remote
address, by the time the access recorder emits its entry a logger is
attached and the remote address has been recorded in it. -/
theorem c8_middleware_order_and_invariant {σ : Type} (s : Server σ)
    (r : Request) (st : HState) (hmux : muxHas s.mux "GET /api" = false)
    (hr : r.remoteAddr ≠ "") :
    (s.loggerChain.append s.authHandler).constructors
      = [hlogNewHandler s.Logger, hlogAccessHandler accessLogCallback,
         hlogRemoteAddrHandler "remove_ip", s.authHandler] ∧
    s.composedApiHandler
      = hlogNewHandler s.Logger (hlogAccessHandler accessLogCallback
          (hlogRemoteAddrHandler "remove_ip"
            (s.authHandler s.handleGetVersion))) ∧
    s.registerRoutes
      = HandleResult.ok (s.mux ++ [("GET /api", s.composedApiHandler)]) ∧
    (s.composedApiHandler r st).logs = st.logs ++ [accessEntry s r] ∧
    ("remove_ip", r.remoteAddr) ∈ (accessEntry s r).fields := by
  refine ⟨rfl, rfl, ?_, ?_, ?_⟩
  · simp [Server.registerRoutes, muxHandle, hmux]
  · simp [Server.composedApiHandler, Server.loggerChain, aliceNew,
          AliceChain.append, AliceChain.thenFunc, hlogNewHandler,
          hlogAccessHandler, hlogRemoteAddrHandler, Server.authHandler,
          Server.handleGetVersion, emitInfo, accessLogCallback, accessEntry,
          hr]
  · simp [accessEntry, hr]

/-- C8 (witness): the middleware-order theorem applied to the orchestrator's
server and a concrete request with a remote address. -/
theorem c8_middleware_order_and_invariant_witness :
    (muxHas runServerInstance.mux "GET /api" = false ∧
     sampleRequest.remoteAddr ≠ "") ∧
    ((runServerInstance.loggerChain.append
        runServerInstance.authHandler).constructors
       = [hlogNewHandler runServerInstance.Logger,
          hlogAccessHandler accessLogCallback,
          hlogRemoteAddrHandler "remove_ip", runServerInstance.authHandler] ∧
     runServerInstance.composedApiHandler
       = hlogNewHandler runServerInstance.Logger
           (hlogAccessHandler accessLogCallback
             (hlogRemoteAddrHandler "remove_ip"
               (runServerInstance.authHandler
                 runServerInstance.handleGetVersion))) ∧
     runServerInstance.registerRoutes
       = HandleResult.ok (runServerInstance.mux ++
           [("GET /api", runServerInstance.composedApiHandler)]) ∧
     (runServerInstance.composedApiHandler sampleRequest HState.initial).logs
       = HState.initial.logs ++
           [accessEntry runServerInstance sampleRequest] ∧
     ("remove_ip", sampleRequest.remoteAddr)
       ∈ (accessEntry runServerInstance sampleRequest).fields) :=
  ⟨⟨by decide, by decide⟩,
   c8_middleware_order_and_invariant runServerInstance sampleRequest
     HState.initial (by decide) (by decide)⟩

/-- C9: both Shutdown operations are idempotent — a second call on the
state left by the first produces the identical state and result — and they
return success (nil) in every state, in particular on a freshly constructed
driver where no server was ever running. -/
theorem c9_shutdown_idempotent {σ : Type} (d : Driver) (ctx : Ctx)
    (s : Server σ) :
    Driver.Shutdown (Driver.Shutdown d ctx).1 ctx = Driver.Shutdown d ctx ∧
    (Driver.Shutdown d ctx).2 = Except.ok () ∧
    (Driver.Shutdown NewDriver ctx).2 = Except.ok () ∧
    Server.Shutdown (Server.Shutdown s ctx).1 ctx = Server.Shutdown s ctx ∧
    (Server.Shutdown s ctx).2 = Except.ok () :=
  ⟨rfl, rfl, rfl, rfl, rfl⟩

/-- C10: the terminal handler handleGetVersion writes nothing to the
response writer and nothing to the structured logger — it only prints the
version text to stdout — so a GET /api request through the composed handler
yields the untouched response state, which finalizes to the default status
200 with an empty body. -/
theorem c10_get_version_writes_stdout_only {σ : Type} (s : Server σ)
    (r : Request) (st : HState) :
    (s.handleGetVersion r st).resp = st.resp ∧
    (s.handleGetVersion r st).logs = st.logs ∧
    (s.handleGetVersion r st).stdout = st.stdout ++ ["Version is 0.1"] ∧
    (s.composedApiHandler r HState.initial).resp = ResponseState.initial ∧
    finalizeStatus (s.composedApiHandler r HState.initial).resp = 200 ∧
    (s.composedApiHandler r HState.initial).resp.body = [] := by
  refine ⟨rfl, rfl, rfl, ?_, ?_, ?_⟩ <;>
    by_cases hra : r.remoteAddr = "" <;>
    simp [Server.composedApiHandler, Server.loggerChain, aliceNew,
          AliceChain.append, AliceChain.thenFunc, hlogNewHandler,
          hlogAccessHandler, hlogRemoteAddrHandler, Server.authHandler,
          Server.handleGetVersion, emitInfo, accessLogCallback,
          finalizeStatus, ResponseState.initial, HState.initial, hra]

end IV
